import Mathlib

/-!
A shallow embedding of `services/listen_dnsport.c` from the unbound DNS resolver:
the socket-provisioning and connection-listening layer that turns configuration
into a set of bound, non-blocking listening sockets and an aggregate of comm
points.

Modelling conventions:
* Kernel and library calls that can fail (socket, setsockopt, bind, fcntl,
  listen, getaddrinfo, malloc, buffer allocation, comm-point creation) are
  driven by an `Oracle`, a stream of booleans deciding the success of each
  fallible call in program order.  The empty oracle makes every call succeed.
* The observable system state (`SysState`) tracks the open file descriptors
  together with the per-descriptor kernel state this layer manipulates
  (family, socket type, options set, bound address, non-blocking flag,
  listening flag), a count of live heap list nodes, a fresh-id source for
  buffers, and counts of `log_err` / `log_warn` messages.
* The platform configuration is fixed to the fully featured one (INET6,
  IPV6_V6ONLY, IPV6_USE_MIN_MTU, SO_REUSEADDR, IPV6_RECVPKTINFO and
  IP_PKTINFO all available), which is the build every conditional branch of
  the source compiles into on a current Linux system.
* `verbose_print_addr` is pure debug printing and has no observable effect in
  the model.
-/

namespace Unbound

/-- Address family of a socket or address (AF_INET / AF_INET6 / AF_UNSPEC). -/
inductive Family
  | inet
  | inet6
  | unspec
deriving DecidableEq

/-- Socket type (SOCK_DGRAM / SOCK_STREAM). -/
inductive SockType
  | dgram
  | stream
deriving DecidableEq

/-- Modelled from the spec: `enum listen_type` from services/listen_dnsport.h
(header not under src/): the transport kind tag of a port descriptor, one of
plain UDP, TCP-accept, or UDP with ancillary destination capture. -/
inductive ListenType
  | udp
  | tcp
  | udpancil
deriving DecidableEq

/-- Modelled from the spec: the comm-point kind of util/netevent (external
event-loop collaborator): UDP-receive, TCP-accept, plus other kinds
(accepted TCP connections, local points) that pause/resume must not touch. -/
inductive CommType
  | comm_udp
  | comm_tcp_accept
  | comm_tcp
  | comm_local
deriving DecidableEq

/-- Per-descriptor kernel state manipulated by this layer. -/
structure FdInfo where
  family : Family
  stype : SockType
  /-- value passed to setsockopt(IPV6_V6ONLY), `none` if the option was never set -/
  v6only : Option Nat := none
  useMinMtu : Bool := false
  reuseAddr : Bool := false
  recvPktInfo : Bool := false
  bound : Bool := false
  boundAddr : String := ""
  boundPort : String := ""
  nonblocking : Bool := false
  listening : Bool := false
deriving DecidableEq

/-- The observable system state threaded through every operation. -/
structure SysState where
  nextFd : Nat := 0
  /-- open descriptors with their kernel state, most recently created first -/
  fds : List (Nat × FdInfo) := []
  /-- count of live heap nodes (listen_port / listen_list list nodes) -/
  nodes : Nat := 0
  /-- fresh-id source for allocated buffers -/
  nextBuf : Nat := 0
  /-- number of log_err messages emitted -/
  errors : Nat := 0
  /-- number of log_warn messages emitted -/
  warnings : Nat := 0
deriving DecidableEq

/-- The initial system state: no descriptors open, nothing allocated. -/
def initState : SysState := {}

/-- Success oracle for fallible calls; the empty stream means all succeed. -/
abbrev Oracle := List Bool

/-- Pop the next success bit off the oracle (`true` when exhausted). -/
def oNext : Oracle → Bool × Oracle
  | [] => (true, [])
  | b :: r => (b, r)

/-- One `log_err` call. -/
def logErr (st : SysState) : SysState := { st with errors := st.errors + 1 }

/-- One `log_warn` call. -/
def logWarn (st : SysState) : SysState := { st with warnings := st.warnings + 1 }

/-- Allocate a fresh descriptor for a newly created socket. -/
def addFd (st : SysState) (fam : Family) (stype : SockType) : SysState :=
  { st with
    nextFd := st.nextFd + 1
    fds := (st.nextFd, { family := fam, stype := stype }) :: st.fds }

/-- Update the kernel state of one open descriptor. -/
def setFd (st : SysState) (fd : Nat) (f : FdInfo → FdInfo) : SysState :=
  { st with fds := st.fds.map fun e => if e.1 = fd then (e.1, f e.2) else e }

/-- close(fd): the descriptor is no longer open. -/
def closeFd (st : SysState) (fd : Nat) : SysState :=
  { st with fds := st.fds.filter fun e => decide (e.1 ≠ fd) }

/-- free() of one heap list node. -/
def freeNode (st : SysState) : SysState := { st with nodes := st.nodes - 1 }

/-- Kernel state of an open descriptor, `none` if not open. -/
def fdinfo (st : SysState) (fd : Nat) : Option FdInfo :=
  (st.fds.find? fun e => e.1 == fd).map fun e => e.2

/-- Family of an open descriptor. -/
def fdFamily (st : SysState) (fd : Nat) : Option Family := (fdinfo st fd).map (·.family)

/-- Address an open descriptor was bound to. -/
def fdBoundAddr (st : SysState) (fd : Nat) : Option String := (fdinfo st fd).map (·.boundAddr)

/-- IPV6_V6ONLY value set on an open descriptor (`some none` = open, never set). -/
def fdV6only (st : SysState) (fd : Nat) : Option (Option Nat) := (fdinfo st fd).map (·.v6only)

/-- True iff the descriptor is open, bound and non-blocking. -/
def fdBoundNonblock (st : SysState) (fd : Nat) : Bool :=
  match fdinfo st fd with
  | some i => i.bound && i.nonblocking
  | none => false

/-- Socket options issued by this layer. -/
inductive SockOpt
  | v6only (val : Nat)
  | useMinMtu
  | reuseAddr
  | recvPktInfo6
  | pktInfo4
deriving DecidableEq

/-- Effect of a successful setsockopt on the descriptor's kernel state. -/
def applyOpt (opt : SockOpt) (i : FdInfo) : FdInfo :=
  match opt with
  | .v6only v => { i with v6only := some v }
  | .useMinMtu => { i with useMinMtu := true }
  | .reuseAddr => { i with reuseAddr := true }
  | .recvPktInfo6 => { i with recvPktInfo := true }
  | .pktInfo4 => { i with recvPktInfo := true }

/-- socket(2): on success allocates a fresh descriptor. -/
def sys_socket (fam : Family) (stype : SockType) (st : SysState) (o : Oracle) :
    Option Nat × SysState × Oracle :=
  if (oNext o).1 then (some st.nextFd, addFd st fam stype, (oNext o).2)
  else (none, st, (oNext o).2)

/-- setsockopt(2): on success records the option on the descriptor. -/
def sys_setsockopt (fd : Nat) (opt : SockOpt) (st : SysState) (o : Oracle) :
    Bool × SysState × Oracle :=
  if (oNext o).1 then (true, setFd st fd (applyOpt opt), (oNext o).2)
  else (false, st, (oNext o).2)

/-- Resolved address from getaddrinfo. -/
structure AddrInfo where
  family : Family
  socktype : SockType
  addr : String
  port : String
deriving DecidableEq

/-- Kernel-state effect of a successful bind(2) on the descriptor. -/
def bindEffect (a : AddrInfo) (i : FdInfo) : FdInfo :=
  { i with bound := true, boundAddr := a.addr, boundPort := a.port }

/-- bind(2): on success the descriptor is bound to the given address. -/
def sys_bind (fd : Nat) (a : AddrInfo) (st : SysState) (o : Oracle) :
    Bool × SysState × Oracle :=
  if (oNext o).1 then (true, setFd st fd (bindEffect a), (oNext o).2)
  else (false, st, (oNext o).2)

/-- Modelled from the spec: `fd_set_nonblock` from util/net_help (repository
code not under src/): sets the socket non-blocking, returning false (after
logging the platform error) on failure. -/
def fd_set_nonblock (fd : Nat) (st : SysState) (o : Oracle) : Bool × SysState × Oracle :=
  if (oNext o).1 then (true, setFd st fd fun i => { i with nonblocking := true }, (oNext o).2)
  else (false, logErr st, (oNext o).2)

/-- fcntl(F_GETFL): returns the current O_NONBLOCK bit, `none` on failure. -/
def sys_fcntl_getfl (fd : Nat) (st : SysState) (o : Oracle) :
    Option Bool × SysState × Oracle :=
  if (oNext o).1 then
    (some (((st.fds.find? fun e => e.1 == fd).map fun e => e.2.nonblocking).getD false),
      st, (oNext o).2)
  else (none, st, (oNext o).2)

/-- fcntl(F_SETFL): on success sets the O_NONBLOCK bit to the given value. -/
def sys_fcntl_setfl (fd : Nat) (nb : Bool) (st : SysState) (o : Oracle) :
    Bool × SysState × Oracle :=
  if (oNext o).1 then (true, setFd st fd fun i => { i with nonblocking := nb }, (oNext o).2)
  else (false, st, (oNext o).2)

/-- listen(2): on success the descriptor is in the listening state. -/
def sys_listen (fd : Nat) (backlog : Nat) (st : SysState) (o : Oracle) :
    Bool × SysState × Oracle :=
  if (oNext o).1 then (true, setFd st fd fun i => { i with listening := true }, (oNext o).2)
  else (false, st, (oNext o).2)

/-- malloc(3): success bit only; the caller accounts for what was allocated. -/
def sys_malloc (st : SysState) (o : Oracle) : Bool × SysState × Oracle :=
  ((oNext o).1, st, (oNext o).2)

/-- Resolution hints (struct addrinfo used as hints). -/
structure Hints where
  passive : Bool
  numerichost : Bool
  family : Family
  socktype : SockType
deriving DecidableEq

/-- getaddrinfo(3) (external libc, numeric-only here): produces one candidate
address carrying the hint family and socket type; may fail per the oracle. -/
def sys_getaddrinfo (ifname port : String) (hints : Hints) (o : Oracle) :
    Option AddrInfo × Oracle :=
  if (oNext o).1 then (some ⟨hints.family, hints.socktype, ifname, port⟩, (oNext o).2)
  else (none, (oNext o).2)

/-- number of queued TCP connections for listen() -/
def TCP_BACKLOG : Nat := 5

/-- The IPv6 option block of `create_udp_sock`: IPV6_V6ONLY per the v6only
mode (value 0 when the mode is 2, else 1), then IPV6_USE_MIN_MTU; each
failure logs and aborts, without closing the socket (as in the source). -/
def create_udp_sock_v6opts (fam : Family) (s : Nat) (v6only : Nat) (st : SysState) (o : Oracle) :
    Bool × SysState × Oracle :=
  if fam = .inet6 then
    match
      (if v6only ≠ 0 then
        sys_setsockopt s (.v6only (if v6only = 2 then 0 else 1)) st o
      else (true, st, o)) with
    | (false, st, o) => (false, logErr st, o)
    | (true, st, o) =>
      match sys_setsockopt s .useMinMtu st o with
      | (false, st, o) => (false, logErr st, o)
      | (true, st, o) => (true, st, o)
  else (true, st, o)

/-- `create_udp_sock` (src lines 88-138): socket, IPv6 options, bind,
non-blocking; returns the descriptor, or `none` (= -1) on failure. -/
def create_udp_sock (a : AddrInfo) (v6only : Nat) (st : SysState) (o : Oracle) :
    Option Nat × SysState × Oracle :=
  match sys_socket a.family a.socktype st o with
  | (none, st, o) => (none, logErr st, o)
  | (some s, st, o) =>
    match create_udp_sock_v6opts a.family s v6only st o with
    | (false, st, o) => (none, st, o)
    | (true, st, o) =>
      match sys_bind s a st o with
      | (false, st, o) => (none, logErr st, o)
      | (true, st, o) =>
        match fd_set_nonblock s st o with
        | (false, st, o) => (none, st, o)
        | (true, st, o) => (some s, st, o)

/-- Tail of `create_tcp_accept_sock` after fcntl(F_GETFL): F_SETFL with the
flags or-ed with O_NONBLOCK, then listen with the fixed backlog. -/
def create_tcp_accept_sock_finish (s : Nat) (flag : Bool) (st : SysState) (o : Oracle) :
    Option Nat × SysState × Oracle :=
  match sys_fcntl_setfl s flag st o with
  | (false, st, o) => (none, logErr st, o)
  | (true, st, o) =>
    match sys_listen s TCP_BACKLOG st o with
    | (false, st, o) => (none, logErr st, o)
    | (true, st, o) => (some s, st, o)

/-- `create_tcp_accept_sock` (src lines 146-196): socket, SO_REUSEADDR,
IPV6_V6ONLY (value 1 whenever the mode is nonzero), bind, non-blocking via
fcntl (a F_GETFL failure logs and continues with flags 0), listen.  As in the
source, failures return -1 without closing the socket. -/
def create_tcp_accept_sock (a : AddrInfo) (v6only : Nat) (st : SysState) (o : Oracle) :
    Option Nat × SysState × Oracle :=
  match sys_socket a.family a.socktype st o with
  | (none, st, o) => (none, logErr st, o)
  | (some s, st, o) =>
    match sys_setsockopt s .reuseAddr st o with
    | (false, st, o) => (none, logErr st, o)
    | (true, st, o) =>
      match
        (if a.family = .inet6 ∧ v6only ≠ 0 then
          sys_setsockopt s (.v6only 1) st o
        else (true, st, o)) with
      | (false, st, o) => (none, logErr st, o)
      | (true, st, o) =>
        match sys_bind s a st o with
        | (false, st, o) => (none, logErr st, o)
        | (true, st, o) =>
          match sys_fcntl_getfl s st o with
          | (none, st, o) => create_tcp_accept_sock_finish s (false || true) (logErr st) o
          | (some flg, st, o) => create_tcp_accept_sock_finish s (flg || true) st o

/-- `make_sock` (src lines 201-219): set the hint socket type, resolve the
interface numerically, then delegate to the UDP or TCP factory. -/
def make_sock (stype : SockType) (ifname : String) (port : String) (hints : Hints)
    (v6only : Nat) (st : SysState) (o : Oracle) : Option Nat × SysState × Oracle :=
  match sys_getaddrinfo ifname port { hints with socktype := stype } o with
  | (none, o) => (none, logErr st, o)
  | (some res, o) =>
    if stype = .dgram then create_udp_sock res v6only st o
    else create_tcp_accept_sock res v6only st o

/-- Modelled from the spec: `struct listen_port` from services/listen_dnsport.h
(header not under src/): one port descriptor, a socket handle with its
transport kind; the singly linked list is modelled as `List ListenPort`. -/
structure ListenPort where
  fd : Nat
  ftype : ListenType
deriving DecidableEq

/-- `port_insert` (src lines 228-240): prepend a new node holding the
descriptor; on allocation failure return 0 with the list unchanged. -/
def port_insert (list : List ListenPort) (s : Nat) (ftype : ListenType)
    (st : SysState) (o : Oracle) : Bool × List ListenPort × SysState × Oracle :=
  match sys_malloc st o with
  | (false, st, o) => (false, list, st, o)
  | (true, st, o) => (true, ⟨s, ftype⟩ :: list, { st with nodes := st.nodes + 1 }, o)

/-- `set_recvpktinfo` (src lines 243-291), on the fixed platform
(IPV6_RECVPKTINFO and IP_PKTINFO available): enable per-packet destination
address delivery for the descriptor's family. -/
def set_recvpktinfo (s : Nat) (family : Family) (st : SysState) (o : Oracle) :
    Bool × SysState × Oracle :=
  if family = .inet6 then
    match sys_setsockopt s .recvPktInfo6 st o with
    | (false, st, o) => (false, logErr st, o)
    | (true, st, o) => (true, st, o)
  else if family = .inet then
    match sys_setsockopt s .pktInfo4 st o with
    | (false, st, o) => (false, logErr st, o)
    | (true, st, o) => (true, st, o)
  else (true, st, o)

/-- The `if(do_tcp)` tail of `ports_create_if` (src lines 332-340): create and
insert one TCP accept socket; an insertion failure closes the orphan. -/
def ports_create_tcp (ifname : String) (do_tcp : Bool) (hints : Hints) (port : String)
    (list : List ListenPort) (st : SysState) (o : Oracle) :
    Bool × List ListenPort × SysState × Oracle :=
  if do_tcp then
    match make_sock .stream ifname port hints 1 st o with
    | (none, st, o) => (false, list, st, o)
    | (some s, st, o) =>
      match port_insert list s .tcp st o with
      | (false, _, st, o) => (false, list, closeFd st s, o)
      | (true, list, st, o) => (true, list, st, o)
  else (true, list, st, o)

/-- `ports_create_if` (src lines 305-342): per-interface port creation.  With
neither transport requested it returns 0.  In automatic mode (any family) it
creates one UDP socket with v6only forced to 1, enables packet info and
inserts it tagged `udpancil`; otherwise with UDP requested it inserts a plain
UDP socket; then, independently, the TCP branch runs.  On failure it returns
0 with the list as accumulated so far (the caller frees it). -/
def ports_create_if (ifname : String) (do_auto do_udp do_tcp : Bool) (hints : Hints)
    (port : String) (list : List ListenPort) (st : SysState) (o : Oracle) :
    Bool × List ListenPort × SysState × Oracle :=
  if !do_udp && !do_tcp then (false, list, st, o)
  else if do_auto then
    match make_sock .dgram ifname port hints 1 st o with
    | (none, st, o) => (false, list, st, o)
    | (some s, st, o) =>
      match set_recvpktinfo s hints.family st o with
      | (false, st, o) => (false, list, st, o)
      | (true, st, o) =>
        match port_insert list s .udpancil st o with
        | (false, _, st, o) => (false, list, closeFd st s, o)
        | (true, list, st, o) => ports_create_tcp ifname do_tcp hints port list st o
  else if do_udp then
    match make_sock .dgram ifname port hints 1 st o with
    | (none, st, o) => (false, list, st, o)
    | (some s, st, o) =>
      match port_insert list s .udp st o with
      | (false, _, st, o) => (false, list, closeFd st s, o)
      | (true, list, st, o) => ports_create_tcp ifname do_tcp hints port list st o
  else ports_create_tcp ifname do_tcp hints port list st o

/-- `listening_ports_free` (src lines 534-544): close every descriptor held
by the list (inserted descriptors are never -1) and free every node. -/
def listening_ports_free (list : List ListenPort) (st : SysState) : SysState :=
  match list with
  | [] => st
  | p :: rest => listening_ports_free rest (freeNode (closeFd st p.fd))

/-- Modelled from the spec: the configuration fields of util/config_file
consumed by this layer (port number, family/transport enables, TCP
accept-queue depth, automatic-interface flag, explicit interface strings). -/
structure ConfigFile where
  port : Nat
  do_ip4 : Bool
  do_ip6 : Bool
  do_udp : Bool
  do_tcp : Bool
  if_automatic : Bool
  incoming_num_tcp : Nat
  ifs : List String
deriving DecidableEq

/-- Modelled from the spec: `str_is_ip6` from util/net_help (repository code
not under src/): a literal address string is IPv6 iff it contains a colon. -/
def str_is_ip6 (s : String) : Bool := s.data.contains ':'

/-- The explicit-interface loop of `listening_ports_open` (src lines 510-530):
classify each configured interface string, skip disabled families, build its
ports; on failure free the accumulated list and return NULL.  (The source
mutates the family field of a shared hints struct right before each call;
passing an updated copy is equivalent since every use sets it first.) -/
def ports_open_ifs (ifs : List String) (do_ip4 do_ip6 do_udp do_tcp : Bool) (hints : Hints)
    (port : String) (list : List ListenPort) (st : SysState) (o : Oracle) :
    List ListenPort × SysState × Oracle :=
  match ifs with
  | [] => (list, st, o)
  | i :: rest =>
    if str_is_ip6 i then
      if !do_ip6 then ports_open_ifs rest do_ip4 do_ip6 do_udp do_tcp hints port list st o
      else
        match ports_create_if i false do_udp do_tcp { hints with family := .inet6 }
            port list st o with
        | (false, l, st, o) => ([], listening_ports_free l st, o)
        | (true, l, st, o) => ports_open_ifs rest do_ip4 do_ip6 do_udp do_tcp hints port l st o
    else
      if !do_ip4 then ports_open_ifs rest do_ip4 do_ip6 do_udp do_tcp hints port list st o
      else
        match ports_create_if i false do_udp do_tcp { hints with family := .inet }
            port list st o with
        | (false, l, st, o) => ([], listening_ports_free l st, o)
        | (true, l, st, o) => ports_open_ifs rest do_ip4 do_ip6 do_udp do_tcp hints port l st o

/-- Steps 6-8 of `listening_ports_open` (src lines 490-531), after the local
do_auto flag has been settled: the default/automatic branch builds the IPv6
entry (wildcard in auto mode, loopback otherwise) then the IPv4 entry the
same way; otherwise each configured interface is built per its family; any
failure frees everything accumulated and returns NULL. -/
def listening_ports_open_rest (cfg : ConfigFile) (do_auto do_tcp : Bool) (hints : Hints)
    (portbuf : String) (st : SysState) (o : Oracle) :
    List ListenPort × SysState × Oracle :=
  if do_auto || cfg.ifs.length = 0 then
    match
      (if cfg.do_ip6 then
        ports_create_if (if do_auto then "::0" else "::1") do_auto cfg.do_udp do_tcp
          { hints with family := .inet6 } portbuf [] st o
      else (true, ([] : List ListenPort), st, o)) with
    | (false, l, st, o) => ([], listening_ports_free l st, o)
    | (true, l, st, o) =>
      match
        (if cfg.do_ip4 then
          ports_create_if (if do_auto then "0.0.0.0" else "127.0.0.1") do_auto cfg.do_udp
            do_tcp { hints with family := .inet } portbuf l st o
        else (true, l, st, o)) with
      | (false, l, st, o) => ([], listening_ports_free l st, o)
      | (true, l, st, o) => (l, st, o)
  else ports_open_ifs cfg.ifs cfg.do_ip4 cfg.do_ip6 cfg.do_udp do_tcp hints portbuf [] st o

/-- `listening_ports_open` (src lines 457-532): top-level port-set builder.
NULL is the empty list; a failed build frees everything accumulated and also
returns NULL.  The platform has INET6, so do_ip6 is not forced off.  The C
locals (portbuf, do_tcp forced off by a zero accept queue, do_auto, hints,
and do_auto's reset-with-warning when a family is missing) are inlined at
their use sites. -/
def listening_ports_open (cfg : ConfigFile) (st : SysState) (o : Oracle) :
    List ListenPort × SysState × Oracle :=
  if !cfg.do_ip4 && !cfg.do_ip6 then ([], st, o)
  else if (cfg.if_automatic && cfg.do_udp) && (!cfg.do_ip4 || !cfg.do_ip6) then
    listening_ports_open_rest cfg false
      (if cfg.incoming_num_tcp = 0 then false else cfg.do_tcp)
      ⟨true, cfg.ifs.length != 0, .unspec, .dgram⟩ (toString cfg.port) (logWarn st) o
  else
    listening_ports_open_rest cfg (cfg.if_automatic && cfg.do_udp)
      (if cfg.incoming_num_tcp = 0 then false else cfg.do_tcp)
      ⟨true, cfg.ifs.length != 0, .unspec, .dgram⟩ (toString cfg.port) st o

/-- Modelled from the spec: a comm point of util/netevent (external event-loop
collaborator), restricted to the state this layer observes: its kind, wrapped
descriptor, the do-not-close flag, and whether readiness delivery is armed. -/
structure CommPoint where
  ctype : CommType
  fd : Nat
  do_not_close : Bool
  listening : Bool
deriving DecidableEq

/-- Modelled from the spec: `comm_point_create_udp` of util/netevent: wrap a
descriptor as a UDP-receive comm point registered with the reactor; may fail
per the oracle (allocation / event registration). -/
def comm_point_create_udp (base fd buff : Nat) (st : SysState) (o : Oracle) :
    Option CommPoint × SysState × Oracle :=
  if (oNext o).1 then (some ⟨.comm_udp, fd, false, true⟩, st, (oNext o).2)
  else (none, st, (oNext o).2)

/-- Modelled from the spec: `comm_point_create_udp_ancil` of util/netevent:
like the UDP variant but with ancillary destination capture; netevent gives
such points the UDP-receive kind. -/
def comm_point_create_udp_ancil (base fd buff : Nat) (st : SysState) (o : Oracle) :
    Option CommPoint × SysState × Oracle :=
  if (oNext o).1 then (some ⟨.comm_udp, fd, false, true⟩, st, (oNext o).2)
  else (none, st, (oNext o).2)

/-- Modelled from the spec: `comm_point_create_tcp` of util/netevent: wrap a
descriptor as a TCP-accept comm point with the given simultaneous-accept
limit. -/
def comm_point_create_tcp (base fd : Nat) (tcp_accept_count : Nat) (bufsize : Nat)
    (st : SysState) (o : Oracle) : Option CommPoint × SysState × Oracle :=
  if (oNext o).1 then (some ⟨.comm_tcp_accept, fd, false, true⟩, st, (oNext o).2)
  else (none, st, (oNext o).2)

/-- Modelled from the spec: `comm_point_delete` of util/netevent: destroy a
comm point; with do_not_close set it never closes the wrapped descriptor. -/
def comm_point_delete (c : CommPoint) (st : SysState) : SysState :=
  if c.do_not_close then st else closeFd st c.fd

/-- Modelled from the spec: `comm_point_stop_listening` of util/netevent:
stop readiness delivery for the comm point. -/
def comm_point_stop_listening (c : CommPoint) : CommPoint := { c with listening := false }

/-- Modelled from the spec: `comm_point_start_listening` of util/netevent:
re-arm readiness delivery (timeout arguments of -1 mean no timeout). -/
def comm_point_start_listening (c : CommPoint) (tsec tmsec : Int) : CommPoint :=
  { c with listening := true }

/-- Modelled from the spec: `ldns_buffer_new` of the ldns library: allocate
the shared receive buffer, returning its identity; may fail per the oracle. -/
def ldns_buffer_new (bufsize : Nat) (st : SysState) (o : Oracle) :
    Option Nat × SysState × Oracle :=
  if (oNext o).1 then (some st.nextBuf, { st with nextBuf := st.nextBuf + 1 }, (oNext o).2)
  else (none, st, (oNext o).2)

/-- Modelled from the spec: `struct listen_dnsport` from
services/listen_dnsport.h (header not under src/), restricted to the fields
the claims concern: the shared UDP buffer identity and the owned comm-point
collection (the listen_list chain, head first). -/
structure listen_dnsport where
  udp_buff : Nat
  cps : List CommPoint
deriving DecidableEq

/-- `listen_cp_insert` (src lines 350-361): prepend an ownership node for the
comm point; on allocation failure return 0 with the aggregate unchanged. -/
def listen_cp_insert (c : CommPoint) (front : listen_dnsport) (st : SysState) (o : Oracle) :
    Bool × listen_dnsport × SysState × Oracle :=
  match sys_malloc st o with
  | (false, st, o) => (false, front, st, o)
  | (true, st, o) =>
    (true, { front with cps := c :: front.cps }, { st with nodes := st.nodes + 1 }, o)

/-- The teardown loop of `listen_delete`: destroy every owned comm point and
free its list node. -/
def listen_delete_list : List CommPoint → SysState → SysState
  | [], st => st
  | c :: rest, st => listen_delete_list rest (freeNode (comm_point_delete c st))

/-- `listen_delete` (src lines 414-429) on a non-null aggregate: destroy every
comm point, free every node, free the buffer and the aggregate itself. -/
def listen_delete (front : listen_dnsport) (st : SysState) : SysState :=
  listen_delete_list front.cps st

/-- The comm-point creation loop of `listen_create` (src lines 380-404): wrap
each port descriptor as a comm point of the matching kind, mark it
do-not-close, and link it into the aggregate; any failure tears down
everything built so far. -/
def listen_create_loop (base : Nat) (ports : List ListenPort)
    (bufsize tcp_accept_count : Nat) (front : listen_dnsport) (st : SysState) (o : Oracle) :
    Option listen_dnsport × SysState × Oracle :=
  match ports with
  | [] => (some front, st, o)
  | p :: rest =>
    match
      (match p.ftype with
      | .udp => comm_point_create_udp base p.fd front.udp_buff st o
      | .tcp => comm_point_create_tcp base p.fd tcp_accept_count bufsize st o
      | .udpancil => comm_point_create_udp_ancil base p.fd front.udp_buff st o) with
    | (none, st, o) => (none, listen_delete front (logErr st), o)
    | (some cp, st, o) =>
      match listen_cp_insert { cp with do_not_close := true } front st o with
      | (false, _, st, o) =>
        (none, listen_delete front (comm_point_delete { cp with do_not_close := true }
          (logErr st)), o)
      | (true, front, st, o) =>
        listen_create_loop base rest bufsize tcp_accept_count front st o

/-- `listen_create` (src lines 363-412): allocate the aggregate and the shared
buffer, run the comm-point creation loop, and fail (with teardown) if the
resulting collection is empty. -/
def listen_create (base : Nat) (ports : List ListenPort) (bufsize tcp_accept_count : Nat)
    (cb cb_arg : Nat) (st : SysState) (o : Oracle) :
    Option listen_dnsport × SysState × Oracle :=
  match sys_malloc st o with
  | (false, st, o) => (none, st, o)
  | (true, st, o) =>
    match ldns_buffer_new bufsize st o with
    | (none, st, o) => (none, st, o)
    | (some buf, st, o) =>
      match listen_create_loop base ports bufsize tcp_accept_count ⟨buf, []⟩ st o with
      | (none, st, o) => (none, st, o)
      | (some front, st, o) =>
        if front.cps = [] then (none, listen_delete front (logErr st), o)
        else (some front, st, o)

/-- `listen_pushback` (src lines 431-442): stop readiness delivery for every
owned comm point of UDP-receive or TCP-accept kind; others are skipped. -/
def listen_pushback (lst : listen_dnsport) : listen_dnsport :=
  { lst with
    cps := lst.cps.map fun c =>
      if c.ctype ≠ .comm_udp ∧ c.ctype ≠ .comm_tcp_accept then c
      else comm_point_stop_listening c }

/-- `listen_resume` (src lines 444-455): re-arm readiness delivery for every
owned comm point of UDP-receive or TCP-accept kind; others are skipped. -/
def listen_resume (lst : listen_dnsport) : listen_dnsport :=
  { lst with
    cps := lst.cps.map fun c =>
      if c.ctype ≠ .comm_udp ∧ c.ctype ≠ .comm_tcp_accept then c
      else comm_point_start_listening c (-1) (-1) }

/-- No TCP-accept descriptor occurs in the port list. -/
def noTcpPorts (l : List ListenPort) : Bool := l.all fun p => p.ftype != .tcp

/-- Automatic-interface configuration with both families enabled, UDP only. -/
def cfgAuto : ConfigFile := ⟨53, true, true, true, false, true, 10, []⟩

/-- Automatic-interface configuration with both families, UDP and TCP. -/
def cfgAutoTcp : ConfigFile := ⟨53, true, true, true, true, true, 10, []⟩

/-- Three explicit interfaces, UDP only: three requested sockets. -/
def cfgThreeIfs : ConfigFile :=
  ⟨53, true, true, true, false, false, 10, ["::1", "127.0.0.1", "127.0.0.2"]⟩

/-- Oracle making the bind of the second of the three requested sockets fail
(the tenth fallible call of the run) and everything else succeed. -/
def oracleBind2Fails : Oracle := List.replicate 9 true ++ [false]

/-- An IPv6 datagram address as resolved for the UDP factory. -/
def addr6udp : AddrInfo := ⟨.inet6, .dgram, "::1", "53"⟩

/-- An IPv6 stream address as resolved for the TCP factory. -/
def addr6tcp : AddrInfo := ⟨.inet6, .stream, "::1", "53"⟩



/-- C3 counterexample: with neither UDP nor TCP requested (and automatic mode
off), `ports_create_if` returns 0, the failure indicator, not success. -/
theorem ports_create_if_no_transport_fails :
    (ports_create_if "::1" false false false ⟨true, false, .inet6, .dgram⟩ "53"
      [] initState []).1 = false := by decide

/-- C3 (amended): with neither UDP nor TCP requested (and automatic mode off),
`ports_create_if` returns the failure indicator 0 immediately, creating no
socket, consuming no oracle step, and leaving the port list and the system
state unchanged. -/
theorem ports_create_if_no_transport (ifname : String) (hints : Hints) (port : String)
    (list : List ListenPort) (st : SysState) (o : Oracle) :
    ports_create_if ifname false false false hints port list st o = (false, list, st, o) := rfl

/-- C5: for every configuration with do_ip4 false and do_ip6 false, building
the port set returns the empty list and leaves the system state untouched:
no socket is created and no error is logged. -/
theorem no_families_empty_result (cfg : ConfigFile) (st : SysState) (o : Oracle)
    (h4 : cfg.do_ip4 = false) (h6 : cfg.do_ip6 = false) :
    listening_ports_open cfg st o = ([], st, o) := by
  rcases cfg with ⟨p, i4, i6, u, t, a, inc, ifs⟩
  simp only at h4 h6
  subst h4 h6
  rfl

/-- Witness for C5 at a concrete configuration. -/
theorem no_families_empty_result_witness :
    listening_ports_open ⟨53, false, false, true, true, false, 10, []⟩ initState [] =
      ([], initState, []) :=
  no_families_empty_result ⟨53, false, false, true, true, false, 10, []⟩ initState [] rfl rfl

/-- C8: pause followed by resume leaves the shared-buffer identity and the
comm-point collection (membership and order) unchanged; each operation maps
each owned comm point of UDP-receive or TCP-accept kind to the same point
with only its readiness-delivery state toggled, and is the identity on comm
points of every other kind. -/
theorem pause_resume_frame (lst : listen_dnsport) :
    (listen_resume (listen_pushback lst)).udp_buff = lst.udp_buff ∧
    (listen_pushback lst).udp_buff = lst.udp_buff ∧
    (listen_resume (listen_pushback lst)).cps = lst.cps.map (fun c =>
      if c.ctype = .comm_udp ∨ c.ctype = .comm_tcp_accept
      then { c with listening := true } else c) ∧
    (listen_pushback lst).cps = lst.cps.map (fun c =>
      if c.ctype = .comm_udp ∨ c.ctype = .comm_tcp_accept
      then { c with listening := false } else c) ∧
    (listen_resume lst).cps = lst.cps.map (fun c =>
      if c.ctype = .comm_udp ∨ c.ctype = .comm_tcp_accept
      then { c with listening := true } else c) := by
  refine ⟨rfl, rfl, ?_, ?_, ?_⟩
  · show (lst.cps.map _).map _ = _
    rw [List.map_map]
    apply List.map_congr_left
    intro c _
    rcases c with ⟨ct, fd, dnc, lsn⟩
    cases ct <;> rfl
  · apply List.map_congr_left
    intro c _
    rcases c with ⟨ct, fd, dnc, lsn⟩
    cases ct <;> rfl
  · apply List.map_congr_left
    intro c _
    rcases c with ⟨ct, fd, dnc, lsn⟩
    cases ct <;> rfl

/-- C10: inserting into the port-descriptor list is atomic: on allocation
success exactly one node holding the given descriptor and kind is prepended
to the head with the previous list as tail (and one node is accounted), and
on allocation failure the call fails with the list and state unchanged. -/
theorem port_insert_spec (list : List ListenPort) (s : Nat) (ft : ListenType)
    (st : SysState) (o : Oracle) :
    port_insert list s ft st o =
      (if (oNext o).1 then
        (true, ⟨s, ft⟩ :: list, { st with nodes := st.nodes + 1 }, (oNext o).2)
      else (false, list, st, (oNext o).2)) := by
  rcases o with _ | ⟨b, o⟩
  · rfl
  · cases b <;> rfl

/-- C2 (code evaluated at the failing input): three UDP sockets are requested
on three explicit interfaces; the bind of the second one fails.  The build
returns failure with every list node freed, but the descriptor created by
socket() for the second interface (fd 1) is still open: one descriptor leaks
because `create_udp_sock` does not close the socket when bind fails. -/
theorem bind_failure_leaks_fd :
    (listening_ports_open cfgThreeIfs initState oracleBind2Fails).1 = [] ∧
    (listening_ports_open cfgThreeIfs initState oracleBind2Fails).2.1.nodes = 0 ∧
    ((listening_ports_open cfgThreeIfs initState oracleBind2Fails).2.1.fds.map
      fun e => e.1) = [1] := by decide

/-- C1 counterexample: in automatic mode with both families enabled (UDP on,
TCP off), the build creates two ancillary-capture descriptors, not one; the
descriptor at the list head (fd 1) is an IPv4 socket bound to the IPv4
wildcard, so IPv4 does receive the ancillary-capture treatment. -/
theorem auto_mode_creates_ip4_ancil :
    (listening_ports_open cfgAuto initState []).1 = [⟨1, .udpancil⟩, ⟨0, .udpancil⟩] ∧
    fdFamily (listening_ports_open cfgAuto initState []).2.1 1 = some .inet ∧
    fdBoundAddr (listening_ports_open cfgAuto initState []).2.1 1 = some "0.0.0.0" := by
  decide

/-- C4 counterexample: for an IPv6 address and v6OnlyMode 2, the UDP factory
sets IPV6_V6ONLY to 0 (disable) while the TCP factory sets it to 1 (enable):
the option values differ, and mode 2 does not disable v6-only on TCP. -/
theorem tcp_v6only_mode2_differs :
    fdV6only (create_udp_sock addr6udp 2 initState []).2.1 0 = some (some 0) ∧
    fdV6only (create_tcp_accept_sock addr6tcp 2 initState []).2.1 0 = some (some 1) ∧
    fdV6only (create_udp_sock addr6udp 2 initState []).2.1 0 ≠
      fdV6only (create_tcp_accept_sock addr6tcp 2 initState []).2.1 0 := by
  decide




theorem fdinfo_logErr (st : SysState) (fd : Nat) : fdinfo (logErr st) fd = fdinfo st fd := rfl

theorem find_update (l : List (Nat × FdInfo)) (fd : Nat) (f : FdInfo → FdInfo) :
    ((l.map fun e => if e.1 = fd then (e.1, f e.2) else e).find? fun e => e.1 == fd) =
      ((l.find? fun e => e.1 == fd).map fun e => (e.1, f e.2)) := by
  induction l with
  | nil => rfl
  | cons a t ih =>
    by_cases h : a.1 = fd
    · simp [List.find?_cons, h]
    · simp [List.find?_cons, h, ih]

theorem fdinfo_setFd_self (st : SysState) (fd : Nat) (f : FdInfo → FdInfo) :
    fdinfo (setFd st fd f) fd = (fdinfo st fd).map f := by
  unfold fdinfo setFd
  dsimp only
  rw [find_update]
  cases st.fds.find? fun e => e.1 == fd <;> rfl

theorem fdinfo_addFd (st : SysState) (fam : Family) (tp : SockType) :
    fdinfo (addFd st fam tp) st.nextFd = some { family := fam, stype := tp } := by
  simp [fdinfo, addFd, List.find?_cons]

theorem sys_socket_some (fam : Family) (tp : SockType) (st : SysState) (o : Oracle)
    (s : Nat) (st1 : SysState) (o1 : Oracle)
    (h : sys_socket fam tp st o = (some s, st1, o1)) :
    s = st.nextFd ∧ st1 = addFd st fam tp := by
  unfold sys_socket at h
  split at h
  · simp only [Prod.mk.injEq, Option.some.injEq] at h
    exact ⟨h.1.symm, h.2.1.symm⟩
  · simp at h

theorem sys_setsockopt_true (fd : Nat) (opt : SockOpt) (st : SysState) (o : Oracle)
    (st1 : SysState) (o1 : Oracle) (h : sys_setsockopt fd opt st o = (true, st1, o1)) :
    st1 = setFd st fd (applyOpt opt) := by
  unfold sys_setsockopt at h
  split at h
  · simp only [Prod.mk.injEq] at h
    exact h.2.1.symm
  · simp at h

theorem sys_bind_true (fd : Nat) (a : AddrInfo) (st : SysState) (o : Oracle)
    (st1 : SysState) (o1 : Oracle) (h : sys_bind fd a st o = (true, st1, o1)) :
    st1 = setFd st fd (bindEffect a) := by
  unfold sys_bind at h
  split at h
  · simp only [Prod.mk.injEq] at h
    exact h.2.1.symm
  · simp at h

theorem fd_set_nonblock_true (fd : Nat) (st : SysState) (o : Oracle)
    (st1 : SysState) (o1 : Oracle) (h : fd_set_nonblock fd st o = (true, st1, o1)) :
    st1 = setFd st fd fun i => { i with nonblocking := true } := by
  unfold fd_set_nonblock at h
  split at h
  · simp only [Prod.mk.injEq] at h
    exact h.2.1.symm
  · simp at h

theorem sys_fcntl_setfl_true (fd : Nat) (nb : Bool) (st : SysState) (o : Oracle)
    (st1 : SysState) (o1 : Oracle) (h : sys_fcntl_setfl fd nb st o = (true, st1, o1)) :
    st1 = setFd st fd fun i => { i with nonblocking := nb } := by
  unfold sys_fcntl_setfl at h
  split at h
  · simp only [Prod.mk.injEq] at h
    exact h.2.1.symm
  · simp at h

theorem sys_listen_true (fd : Nat) (backlog : Nat) (st : SysState) (o : Oracle)
    (st1 : SysState) (o1 : Oracle) (h : sys_listen fd backlog st o = (true, st1, o1)) :
    st1 = setFd st fd fun i => { i with listening := true } := by
  unfold sys_listen at h
  split at h
  · simp only [Prod.mk.injEq] at h
    exact h.2.1.symm
  · simp at h

theorem sys_fcntl_getfl_state (fd : Nat) (st : SysState) (o : Oracle) :
    (sys_fcntl_getfl fd st o).2.1 = st := by
  unfold sys_fcntl_getfl
  split <;> rfl

theorem isSome_map_of_isSome (x : Option FdInfo) (f : FdInfo → FdInfo)
    (h : x.isSome = true) : (x.map f).isSome = true := by
  cases x
  · simp at h
  · rfl

theorem v6opts_true_isSome (fam : Family) (s0 : Nat) (m : Nat) (st : SysState) (o : Oracle)
    (st1 : SysState) (o1 : Oracle)
    (h : create_udp_sock_v6opts fam s0 m st o = (true, st1, o1))
    (hs : (fdinfo st s0).isSome = true) : (fdinfo st1 s0).isSome = true := by
  unfold create_udp_sock_v6opts at h
  split at h
  · rcases h1 : (if m ≠ 0 then
        sys_setsockopt s0 (.v6only (if m = 2 then 0 else 1)) st o
      else (true, st, o)) with ⟨b1, stA, oA⟩
    cases b1
    · simp [h1] at h
    · simp only [h1] at h
      have hA : (fdinfo stA s0).isSome = true := by
        split at h1
        · rw [sys_setsockopt_true _ _ _ _ _ _ h1, fdinfo_setFd_self]
          exact isSome_map_of_isSome _ _ hs
        · simp only [Prod.mk.injEq] at h1
          rw [← h1.2.1]
          exact hs
      rcases h2 : sys_setsockopt s0 .useMinMtu stA oA with ⟨b2, stB, oB⟩
      cases b2
      · simp [h2] at h
      · simp only [h2, Prod.mk.injEq] at h
        rw [← h.2.1, sys_setsockopt_true _ _ _ _ _ _ h2, fdinfo_setFd_self]
        exact isSome_map_of_isSome _ _ hA
  · simp only [Prod.mk.injEq] at h
    rw [← h.2.1]
    exact hs

theorem create_udp_sock_ok (a : AddrInfo) (m : Nat) (st : SysState) (o : Oracle)
    (s : Nat) (st1 : SysState) (o1 : Oracle)
    (h : create_udp_sock a m st o = (some s, st1, o1)) :
    fdBoundNonblock st1 s = true := by
  unfold create_udp_sock at h
  rcases h0 : sys_socket a.family a.socktype st o with ⟨ms, stA, oA⟩
  cases ms with
  | none => simp [h0] at h
  | some s0 =>
    simp only [h0] at h
    obtain ⟨hs0, hstA⟩ := sys_socket_some _ _ _ _ _ _ _ h0
    rcases h1 : create_udp_sock_v6opts a.family s0 m stA oA with ⟨b1, stB, oB⟩
    cases b1
    · simp [h1] at h
    · simp only [h1] at h
      rcases h2 : sys_bind s0 a stB oB with ⟨b2, stC, oC⟩
      cases b2
      · simp [h2] at h
      · simp only [h2] at h
        rcases h3 : fd_set_nonblock s0 stC oC with ⟨b3, stD, oD⟩
        cases b3
        · simp [h3] at h
        · simp only [h3, Prod.mk.injEq, Option.some.injEq] at h
          obtain ⟨hss, hst1, -⟩ := h
          subst hss hst1
          have hB : (fdinfo stB s0).isSome = true := by
            apply v6opts_true_isSome _ _ _ _ _ _ _ h1
            rw [hstA, hs0, fdinfo_addFd]
            rfl
          obtain ⟨i, hi⟩ := Option.isSome_iff_exists.mp hB
          rw [sys_bind_true _ _ _ _ _ _ h2] at h3
          rw [fd_set_nonblock_true _ _ _ _ _ h3]
          unfold fdBoundNonblock
          rw [fdinfo_setFd_self, fdinfo_setFd_self, hi]
          rfl

theorem tcp_finish_ok (s0 : Nat) (flag : Bool) (st : SysState) (o : Oracle)
    (s : Nat) (st1 : SysState) (o1 : Oracle)
    (h : create_tcp_accept_sock_finish s0 flag st o = (some s, st1, o1))
    (i : FdInfo) (hi : fdinfo st s0 = some i) (hb : i.bound = true) (hf : flag = true) :
    fdBoundNonblock st1 s = true := by
  unfold create_tcp_accept_sock_finish at h
  rcases h1 : sys_fcntl_setfl s0 flag st o with ⟨b1, stA, oA⟩
  cases b1
  · simp [h1] at h
  · simp only [h1] at h
    rcases h2 : sys_listen s0 TCP_BACKLOG stA oA with ⟨b2, stB, oB⟩
    cases b2
    · simp [h2] at h
    · simp only [h2, Prod.mk.injEq, Option.some.injEq] at h
      obtain ⟨hss, hst1, -⟩ := h
      subst hss hst1
      rw [sys_fcntl_setfl_true _ _ _ _ _ _ h1] at h2
      rw [sys_listen_true _ _ _ _ _ _ h2]
      unfold fdBoundNonblock
      rw [fdinfo_setFd_self, fdinfo_setFd_self, hi]
      subst hf
      simp [hb]

theorem create_tcp_accept_sock_ok (a : AddrInfo) (m : Nat) (st : SysState) (o : Oracle)
    (s : Nat) (st1 : SysState) (o1 : Oracle)
    (h : create_tcp_accept_sock a m st o = (some s, st1, o1)) :
    fdBoundNonblock st1 s = true := by
  unfold create_tcp_accept_sock at h
  rcases h0 : sys_socket a.family a.socktype st o with ⟨ms, stA, oA⟩
  cases ms with
  | none => simp [h0] at h
  | some s0 =>
    simp only [h0] at h
    obtain ⟨hs0, hstA⟩ := sys_socket_some _ _ _ _ _ _ _ h0
    rcases h1 : sys_setsockopt s0 .reuseAddr stA oA with ⟨b1, stB, oB⟩
    cases b1
    · simp [h1] at h
    · simp only [h1] at h
      rcases h2 : (if a.family = .inet6 ∧ m ≠ 0 then
          sys_setsockopt s0 (.v6only 1) stB oB
        else (true, stB, oB)) with ⟨b2, stC, oC⟩
      cases b2
      · simp [h2] at h
      · simp only [h2] at h
        have hC : (fdinfo stC s0).isSome = true := by
          have hBs : (fdinfo stB s0).isSome = true := by
            rw [sys_setsockopt_true _ _ _ _ _ _ h1, fdinfo_setFd_self,
              hstA, hs0, fdinfo_addFd]
            rfl
          split at h2
          · rw [sys_setsockopt_true _ _ _ _ _ _ h2, fdinfo_setFd_self]
            exact isSome_map_of_isSome _ _ hBs
          · simp only [Prod.mk.injEq] at h2
            rw [← h2.2.1]
            exact hBs
        rcases h3 : sys_bind s0 a stC oC with ⟨b3, stD, oD⟩
        cases b3
        · simp [h3] at h
        · simp only [h3] at h
          obtain ⟨iC, hiC⟩ := Option.isSome_iff_exists.mp hC
          have hD : fdinfo stD s0 = some (bindEffect a iC) := by
            rw [sys_bind_true _ _ _ _ _ _ h3, fdinfo_setFd_self, hiC]
            rfl
          rcases h4 : sys_fcntl_getfl s0 stD oD with ⟨r4, stE, oE⟩
          have hstE : stE = stD := by
            have h5 := sys_fcntl_getfl_state s0 stD oD
            rw [h4] at h5
            exact h5
          cases r4 with
          | none =>
            simp only [h4] at h
            apply tcp_finish_ok _ _ _ _ _ _ _ h (bindEffect a iC)
            · rw [fdinfo_logErr, hstE]
              exact hD
            · rfl
            · rfl
          | some flg =>
            simp only [h4] at h
            apply tcp_finish_ok _ _ _ _ _ _ _ h (bindEffect a iC)
            · rw [hstE]
              exact hD
            · rfl
            · exact Bool.or_true flg

/-- C9: every socket handle returned successfully (not -1) by the UDP socket
factory or the TCP accept-socket factory refers to an open descriptor that
has been bound to the requested address and set non-blocking before return,
for every address, v6-only mode, starting state and oracle. -/
theorem sock_factory_bound_nonblocking :
    (∀ (a : AddrInfo) (m : Nat) (st : SysState) (o : Oracle) (s : Nat) (st1 : SysState)
      (o1 : Oracle), create_udp_sock a m st o = (some s, st1, o1) →
        fdBoundNonblock st1 s = true) ∧
    (∀ (a : AddrInfo) (m : Nat) (st : SysState) (o : Oracle) (s : Nat) (st1 : SysState)
      (o1 : Oracle), create_tcp_accept_sock a m st o = (some s, st1, o1) →
        fdBoundNonblock st1 s = true) :=
  ⟨fun a m st o s st1 o1 h => create_udp_sock_ok a m st o s st1 o1 h,
   fun a m st o s st1 o1 h => create_tcp_accept_sock_ok a m st o s st1 o1 h⟩

/-- Witness for C9: concrete successful runs of both factories. -/
theorem sock_factory_bound_nonblocking_witness :
    fdBoundNonblock (create_udp_sock addr6udp 1 initState []).2.1 0 = true ∧
    fdBoundNonblock (create_tcp_accept_sock addr6tcp 1 initState []).2.1 0 = true :=
  ⟨sock_factory_bound_nonblocking.1 addr6udp 1 initState [] 0
      (create_udp_sock addr6udp 1 initState []).2.1
      (create_udp_sock addr6udp 1 initState []).2.2 (by decide),
   sock_factory_bound_nonblocking.2 addr6tcp 1 initState [] 0
      (create_tcp_accept_sock addr6tcp 1 initState []).2.1
      (create_tcp_accept_sock addr6tcp 1 initState []).2.2 (by decide)⟩




theorem port_insert_true (list : List ListenPort) (s : Nat) (ft : ListenType)
    (st : SysState) (o : Oracle) (l1 : List ListenPort) (st1 : SysState) (o1 : Oracle)
    (h : port_insert list s ft st o = (true, l1, st1, o1)) : l1 = ⟨s, ft⟩ :: list := by
  unfold port_insert at h
  rcases hm : sys_malloc st o with ⟨b, stA, oA⟩
  cases b
  · simp [hm] at h
  · simp only [hm, Prod.mk.injEq] at h
    exact h.2.1.symm

theorem noTcpPorts_cons (p : ListenPort) (l : List ListenPort)
    (hp : (p.ftype != ListenType.tcp) = true)
    (hl : noTcpPorts l = true) : noTcpPorts (p :: l) = true := by
  show ((p.ftype != ListenType.tcp) && noTcpPorts l) = true
  rw [hp, hl]
  rfl

theorem ports_create_tcp_false (ifname : String) (hints : Hints) (port : String)
    (l : List ListenPort) (st : SysState) (o : Oracle) :
    ports_create_tcp ifname false hints port l st o = (true, l, st, o) := rfl

theorem noTcp_ports_create_if (ifname : String) (auto udp : Bool) (hints : Hints)
    (port : String) (l : List ListenPort) (st : SysState) (o : Oracle)
    (hl : noTcpPorts l = true) :
    noTcpPorts (ports_create_if ifname auto udp false hints port l st o).2.1 = true := by
  unfold ports_create_if
  split
  · exact hl
  split
  · rcases h0 : make_sock .dgram ifname port hints 1 st o with ⟨ms, stA, oA⟩
    cases ms with
    | none => simp only [h0]; exact hl
    | some s =>
      simp only [h0]
      rcases h1 : set_recvpktinfo s hints.family stA oA with ⟨b1, stB, oB⟩
      cases b1
      · simp only [h1]; exact hl
      · simp only [h1]
        rcases h2 : port_insert l s .udpancil stB oB with ⟨b2, l2, stC, oC⟩
        cases b2
        · simp only [h2]; exact hl
        · simp only [h2, ports_create_tcp_false]
          rw [port_insert_true _ _ _ _ _ _ _ _ h2]
          exact noTcpPorts_cons _ _ rfl hl
  split
  · rcases h0 : make_sock .dgram ifname port hints 1 st o with ⟨ms, stA, oA⟩
    cases ms with
    | none => simp only [h0]; exact hl
    | some s =>
      simp only [h0]
      rcases h2 : port_insert l s .udp stA oA with ⟨b2, l2, stC, oC⟩
      cases b2
      · simp only [h2]; exact hl
      · simp only [h2, ports_create_tcp_false]
        rw [port_insert_true _ _ _ _ _ _ _ _ h2]
        exact noTcpPorts_cons _ _ rfl hl
  · rw [ports_create_tcp_false]
    exact hl

theorem noTcp_create_if_opt (c : Bool) (ifname : String) (auto udp : Bool) (hints : Hints)
    (port : String) (l : List ListenPort) (st : SysState) (o : Oracle)
    (hl : noTcpPorts l = true) :
    noTcpPorts (if c then ports_create_if ifname auto udp false hints port l st o
      else (true, l, st, o)).2.1 = true := by
  cases c
  · exact hl
  · exact noTcp_ports_create_if ifname auto udp hints port l st o hl

theorem noTcp_ports_open_ifs (ifs : List String) (i4 i6 udp : Bool) (hints : Hints)
    (port : String) (l : List ListenPort) (st : SysState) (o : Oracle)
    (hl : noTcpPorts l = true) :
    noTcpPorts (ports_open_ifs ifs i4 i6 udp false hints port l st o).1 = true := by
  induction ifs generalizing l st o with
  | nil => exact hl
  | cons i rest ih =>
    unfold ports_open_ifs
    split
    · split
      · exact ih l st o hl
      · rcases h0 : ports_create_if i false udp false { hints with family := .inet6 }
            port l st o with ⟨b0, l0, stA, oA⟩
        have hl0 : noTcpPorts l0 = true := by
          have h1 := noTcp_ports_create_if i false udp { hints with family := .inet6 }
            port l st o hl
          rw [h0] at h1
          exact h1
        cases b0
        · simp only [h0]
          rfl
        · simp only [h0]
          exact ih l0 stA oA hl0
    · split
      · exact ih l st o hl
      · rcases h0 : ports_create_if i false udp false { hints with family := .inet }
            port l st o with ⟨b0, l0, stA, oA⟩
        have hl0 : noTcpPorts l0 = true := by
          have h1 := noTcp_ports_create_if i false udp { hints with family := .inet }
            port l st o hl
          rw [h0] at h1
          exact h1
        cases b0
        · simp only [h0]
          rfl
        · simp only [h0]
          exact ih l0 stA oA hl0

theorem noTcp_rest (cfg : ConfigFile) (auto : Bool) (hints : Hints) (portbuf : String)
    (st : SysState) (o : Oracle) :
    noTcpPorts (listening_ports_open_rest cfg auto false hints portbuf st o).1 = true := by
  unfold listening_ports_open_rest
  split
  · rcases h0 : (if cfg.do_ip6 then
        ports_create_if (if auto then "::0" else "::1") auto cfg.do_udp false
          { hints with family := .inet6 } portbuf [] st o
      else (true, ([] : List ListenPort), st, o)) with ⟨b0, l0, stA, oA⟩
    have hl0 : noTcpPorts l0 = true := by
      have h1 := noTcp_create_if_opt cfg.do_ip6 (if auto then "::0" else "::1") auto
        cfg.do_udp { hints with family := .inet6 } portbuf [] st o rfl
      rw [h0] at h1
      exact h1
    cases b0
    · simp only [h0]
      rfl
    · simp only [h0]
      rcases h2 : (if cfg.do_ip4 then
          ports_create_if (if auto then "0.0.0.0" else "127.0.0.1") auto cfg.do_udp false
            { hints with family := .inet } portbuf l0 stA oA
        else (true, l0, stA, oA)) with ⟨b2, l2, stB, oB⟩
      have hl2 : noTcpPorts l2 = true := by
        have h1 := noTcp_create_if_opt cfg.do_ip4 (if auto then "0.0.0.0" else "127.0.0.1")
          auto cfg.do_udp { hints with family := .inet } portbuf l0 stA oA hl0
        rw [h2] at h1
        exact h1
      cases b2
      · simp only [h2]
        rfl
      · simp only [h2]
        exact hl2
  · exact noTcp_ports_open_ifs cfg.ifs cfg.do_ip4 cfg.do_ip6 cfg.do_udp hints portbuf
      [] st o rfl

/-- C6: with a TCP accept-queue depth of zero, building the port set never
creates a TCP-accept port descriptor, whatever the do_tcp flag, the other
configuration fields, the starting state and the oracle. -/
theorem tcp_queue_zero_no_tcp (cfg : ConfigFile) (st : SysState) (o : Oracle)
    (h : cfg.incoming_num_tcp = 0) :
    noTcpPorts (listening_ports_open cfg st o).1 = true := by
  have e : (if cfg.incoming_num_tcp = 0 then false else cfg.do_tcp) = false := by
    rw [h]
    rfl
  unfold listening_ports_open
  rw [e]
  split
  · rfl
  split
  · exact noTcp_rest cfg false _ _ _ o
  · exact noTcp_rest cfg _ _ _ _ o

/-- Witness for C6 at a concrete configuration with do_tcp requested but a
zero accept-queue depth. -/
theorem tcp_queue_zero_no_tcp_witness :
    noTcpPorts (listening_ports_open ⟨53, true, true, true, true, false, 0, []⟩
      initState []).1 = true :=
  tcp_queue_zero_no_tcp ⟨53, true, true, true, true, false, 0, []⟩ initState [] rfl

/-- C7: a successfully constructed listener aggregate always has a non-empty
comm-point collection: whenever `listen_create` returns an aggregate (rather
than NULL), its collection is non-empty, for every port list, buffer size,
accept limit and oracle. -/
theorem listen_create_nonempty (base : Nat) (ports : List ListenPort)
    (bufsize tac cb cba : Nat) (st : SysState) (o : Oracle)
    (f : listen_dnsport) (st1 : SysState) (o1 : Oracle)
    (h : listen_create base ports bufsize tac cb cba st o = (some f, st1, o1)) :
    f.cps ≠ [] := by
  unfold listen_create at h
  rcases h0 : sys_malloc st o with ⟨b0, stA, oA⟩
  cases b0
  · simp [h0] at h
  · simp only [h0] at h
    rcases h1 : ldns_buffer_new bufsize stA oA with ⟨r1, stB, oB⟩
    cases r1 with
    | none => simp [h1] at h
    | some buf =>
      simp only [h1] at h
      rcases h2 : listen_create_loop base ports bufsize tac ⟨buf, []⟩ stB oB with ⟨r2, stC, oC⟩
      cases r2 with
      | none => simp [h2] at h
      | some front =>
        simp only [h2] at h
        by_cases hc : front.cps = []
        · rw [if_pos hc] at h
          simp at h
        · rw [if_neg hc] at h
          simp only [Prod.mk.injEq, Option.some.injEq] at h
          rw [← h.1]
          exact hc

/-- Witness for C7: a concrete successful construction with one UDP port. -/
theorem listen_create_nonempty_witness :
    (⟨0, [⟨.comm_udp, 5, true, true⟩]⟩ : listen_dnsport).cps ≠ [] :=
  listen_create_nonempty 0 [⟨5, .udp⟩] 100 7 0 0 initState []
    ⟨0, [⟨.comm_udp, 5, true, true⟩]⟩
    (listen_create 0 [⟨5, .udp⟩] 100 7 0 0 initState []).2.1
    (listen_create 0 [⟨5, .udp⟩] 100 7 0 0 initState []).2.2 (by decide)

/-- C4 (amended): for every IPv6 address the two factories apply the v6-only
restriction identically in modes 0 (option not set) and 1 (option set to 1),
but not in mode 2: the UDP factory sets the option value to 0 (explicitly
allowing v4-mapped traffic) while the TCP factory sets it to 1, enabling
v6-only for every nonzero mode. -/
theorem v6only_mode_values :
    (∀ (a : AddrInfo) (m : Nat), a.family = .inet6 →
      fdV6only (create_udp_sock a m initState []).2.1 0 =
        some (if m = 0 then none else if m = 2 then some 0 else some 1)) ∧
    (∀ (a : AddrInfo) (m : Nat), a.family = .inet6 →
      fdV6only (create_tcp_accept_sock a m initState []).2.1 0 =
        some (if m = 0 then none else some 1)) := by
  constructor
  · intro a m h
    rcases a with ⟨fam, stp, ad, pt⟩
    simp only at h
    subst h
    rcases m with _ | _ | _ | n
    · rfl
    · rfl
    · rfl
    · rfl
  · intro a m h
    rcases a with ⟨fam, stp, ad, pt⟩
    simp only at h
    subst h
    rcases m with _ | _ | _ | n
    · rfl
    · rfl
    · rfl
    · rfl

/-- Witness for C4's amended theorem: both factories at mode 1. -/
theorem v6only_mode_values_witness :
    fdV6only (create_udp_sock addr6udp 1 initState []).2.1 0 = some (some 1) ∧
    fdV6only (create_tcp_accept_sock addr6tcp 1 initState []).2.1 0 = some (some 1) :=
  ⟨v6only_mode_values.1 addr6udp 1 rfl, v6only_mode_values.2 addr6tcp 1 rfl⟩

/-- C1 (amended): in automatic-interface mode with both families enabled, the
build gives the ancillary-capture treatment to both families, not only IPv6:
exactly two UDP ancillary-capture descriptors are created, the first (fd 0)
an IPv6 socket bound to the IPv6 wildcard and the other an IPv4 socket bound
to the IPv4 wildcard. -/
theorem auto_mode_ancil_both_families (cfg : ConfigFile)
    (ha : cfg.if_automatic = true) (hu : cfg.do_udp = true)
    (h4 : cfg.do_ip4 = true) (h6 : cfg.do_ip6 = true) :
    ((listening_ports_open cfg initState []).1.filter fun p => p.ftype == .udpancil) =
      [⟨(if (if cfg.incoming_num_tcp = 0 then false else cfg.do_tcp) then 2 else 1),
        .udpancil⟩, ⟨0, .udpancil⟩] ∧
    fdFamily (listening_ports_open cfg initState []).2.1 0 = some .inet6 ∧
    fdBoundAddr (listening_ports_open cfg initState []).2.1 0 = some "::0" ∧
    fdFamily (listening_ports_open cfg initState []).2.1
      (if (if cfg.incoming_num_tcp = 0 then false else cfg.do_tcp) then 2 else 1) =
      some .inet ∧
    fdBoundAddr (listening_ports_open cfg initState []).2.1
      (if (if cfg.incoming_num_tcp = 0 then false else cfg.do_tcp) then 2 else 1) =
      some "0.0.0.0" := by
  rcases cfg with ⟨p, i4, i6, u, t, a, inc, ifs⟩
  simp only at ha hu h4 h6
  subst ha hu h4 h6
  have e : listening_ports_open ⟨p, true, true, true, t, true, inc, ifs⟩ initState [] =
      listening_ports_open_rest ⟨p, true, true, true, t, true, inc, ifs⟩ true
        (if inc = 0 then false else t) ⟨true, ifs.length != 0, .unspec, .dgram⟩
        (toString p) initState [] := rfl
  rw [e]
  rcases inc with _ | n
  all_goals try cases t
  all_goals refine ⟨?_, ?_, ?_, ?_, ?_⟩
  all_goals
    simp [listening_ports_open_rest, ports_create_if, ports_create_tcp, make_sock,
      sys_getaddrinfo, create_udp_sock, create_udp_sock_v6opts, create_tcp_accept_sock,
      create_tcp_accept_sock_finish, sys_socket, sys_setsockopt, sys_bind, fd_set_nonblock,
      sys_fcntl_getfl, sys_fcntl_setfl, sys_listen, set_recvpktinfo, port_insert, sys_malloc,
      oNext, addFd, setFd, bindEffect, applyOpt, closeFd, logErr, fdFamily, fdBoundAddr,
      fdinfo, initState, listening_ports_free, freeNode]

/-- Witness for C1's amended theorem at a concrete automatic configuration
with TCP enabled. -/
theorem auto_mode_ancil_both_families_witness :
    ((listening_ports_open cfgAutoTcp initState []).1.filter
      fun p => p.ftype == .udpancil) = [⟨2, .udpancil⟩, ⟨0, .udpancil⟩] ∧
    fdFamily (listening_ports_open cfgAutoTcp initState []).2.1 0 = some .inet6 ∧
    fdBoundAddr (listening_ports_open cfgAutoTcp initState []).2.1 0 = some "::0" ∧
    fdFamily (listening_ports_open cfgAutoTcp initState []).2.1 2 = some .inet ∧
    fdBoundAddr (listening_ports_open cfgAutoTcp initState []).2.1 2 = some "0.0.0.0" :=
  auto_mode_ancil_both_families cfgAutoTcp rfl rfl rfl rfl


end Unbound
